import Mathlib

/-!
Verification development for the Optionality Tracker frontend
(frontend/src/types.ts, frontend/src/api.ts, frontend/src/pages/*).
Numeric fields use ℚ as the idealised number type; timestamps and other
opaque strings are modelled as String.
-/

namespace Clarion

/-- The `Domain` union type from frontend/src/types.ts. -/
inductive Domain where
  | income
  | sleep
  | nutrition
  | movement
  | stress
  | social
deriving DecidableEq

/-- `DailyPoint` from frontend/src/types.ts. -/
structure DailyPoint where
  date : String
  o_delta_sum : ℚ
  cumulative : ℚ
  constraint_debt_7d : ℚ
  irreversibility_avg : ℚ
deriving DecidableEq

/-- `WeeklyExposurePoint` from frontend/src/types.ts. -/
structure WeeklyExposurePoint where
  week_start : String
  count : ℚ
deriving DecidableEq

/-- The `capitals_latest` record inside `AnalyticsSummary.totals`. -/
structure CapitalsLatest where
  s : ℚ
  n : ℚ
  l : ℚ
  e : ℚ
deriving DecidableEq

/-- The `totals` record of `AnalyticsSummary` from frontend/src/types.ts. -/
structure AnalyticsTotals where
  sum_o_delta : ℚ
  avg_o_delta : ℚ
  constraint_debt_7d_last : ℚ
  exposure_count_period : ℚ
  readiness_latest : ℚ
  capitals_latest : CapitalsLatest
  confidence_latest : ℚ
deriving DecidableEq

/-- `AnalyticsSummary` from frontend/src/types.ts. -/
structure AnalyticsSummary where
  totals : AnalyticsTotals
  daily : List DailyPoint
  weekly_exposure : List WeeklyExposurePoint
deriving DecidableEq

/-- `IncomeModelSettings` from frontend/src/types.ts. -/
structure IncomeModelSettings where
  id : ℕ
  target_daily_income : ℚ
  w_s : ℚ
  w_n : ℚ
  w_l : ℚ
  w_e : ℚ
  half_life_days : ℚ
  exposure_goal_per_week : ℚ
  updated_at : String
deriving DecidableEq

/-- `IncomeModelPoint` from frontend/src/types.ts. -/
structure IncomeModelPoint where
  date : String
  s : ℚ
  n : ℚ
  l : ℚ
  e : ℚ
  readiness : ℚ
  confidence : ℚ
  low_data_confidence : Bool
deriving DecidableEq

/-- `IncomeModelSeries` from frontend/src/types.ts. -/
structure IncomeModelSeries where
  daily : List IncomeModelPoint
  current : Option IncomeModelPoint
  settings : IncomeModelSettings
  explanations : List String
deriving DecidableEq

/-- Modelled from the spec: the engine helper `clamp01` (the backend that
implements it is not under src/); clamps a value to the interval [0,1]. -/
def clamp01 (x : ℚ) : ℚ := min 1 (max 0 x)

/-- The `preview` memo of `IncomeModelPage` (pages/IncomeModelPage.tsx):
`if (!settings || !series?.current) return null;` then
`100 * (w_s*s + w_n*n + w_l*l + w_e*e)` on the `current` point. -/
def preview (settings : Option IncomeModelSettings)
    (series : Option IncomeModelSeries) : Option ℚ :=
  match settings, series with
  | some st, some se =>
    match se.current with
    | some c => some (100 * (st.w_s * c.s + st.w_n * c.n + st.w_l * c.l + st.w_e * c.e))
    | none => none
  | _, _ => none

/-- The four weight field names handled by `rebalance`
(the array literal in pages/IncomeModelPage.tsx line 28). -/
inductive WeightKey where
  | w_s
  | w_n
  | w_l
  | w_e
deriving DecidableEq

/-- All four weight keys, in the order of the array literal in `rebalance`. -/
def weightKeys : List WeightKey := [.w_s, .w_n, .w_l, .w_e]

/-- Reading `settings[k]` for a weight key. -/
def getWeight (st : IncomeModelSettings) : WeightKey → ℚ
  | .w_s => st.w_s
  | .w_n => st.w_n
  | .w_l => st.w_l
  | .w_e => st.w_e

/-- Writing `next[k] = v` for a weight key. -/
def setWeight (st : IncomeModelSettings) (k : WeightKey) (v : ℚ) : IncomeModelSettings :=
  match k with
  | .w_s => { st with w_s := v }
  | .w_n => { st with w_n := v }
  | .w_l => { st with w_l := v }
  | .w_e => { st with w_e := v }

/-- The `rebalance` function of `IncomeModelPage` (pages/IncomeModelPage.tsx
lines 26-36): sets the chosen weight to `value`, then scales the other three
proportionally so they fill `max(0, 1 - value)`; the JS `restSum || 1`
fallback is modelled by `if restSum = 0 then 1 else restSum`. -/
def rebalance (st : IncomeModelSettings) (which : WeightKey) (value : ℚ) :
    IncomeModelSettings :=
  let rest := weightKeys.filter (fun k => k ≠ which)
  let remaining := max 0 (1 - value)
  let restSum := rest.foldl (fun sum k => sum + getWeight st k) 0
  let currentRest := if restSum = 0 then 1 else restSum
  let next := setWeight st which value
  rest.foldl (fun acc k => setWeight acc k (getWeight st k / currentRest * remaining)) next

/-- The `rest.reduce((sum, k) => sum + settings[k], 0)` sum inside
`rebalance`: the total of the three weights other than `which`. -/
def restWeightSum (st : IncomeModelSettings) (which : WeightKey) : ℚ :=
  (weightKeys.filter (fun k => k ≠ which)).foldl (fun sum k => sum + getWeight st k) 0

/-- Models JavaScript `Number.prototype.toFixed(1)` on a rational: round
`10 * v` to the nearest integer (ties toward positive infinity, as JS picks
the larger candidate) and print one decimal digit. -/
def toFixed1 (v : ℚ) : String :=
  let n : ℤ := round (10 * v)
  let sign := if n < 0 then "-" else ""
  sign ++ toString (n.natAbs / 10) ++ "." ++ toString (n.natAbs % 10)

/-- The rendered preview text of `IncomeModelPage` line 81:
`preview?.toFixed(1) ?? '--'`. -/
def previewDisplay (p : Option ℚ) : String :=
  (p.map toFixed1).getD "--"

/-- The low-lead explanation string of `DashboardPage` (line 81). -/
def leadLowMessage : String :=
  "Lead capital is low → aim to log exposures toward your weekly goal."

/-- The healthy-lead explanation string of `DashboardPage` (line 82). -/
def leadHealthyMessage : String :=
  "Lead capital is in a healthy range."

/-- The lead-capital explanation shown by `DashboardPage` (lines 79-83):
`capitals_latest.l < 0.4 ? lowMessage : healthyMessage`. -/
def leadCapitalMessage (a : AnalyticsSummary) : String :=
  if a.totals.capitals_latest.l < 0.4 then leadLowMessage else leadHealthyMessage

/-- The `oDelta` memo of `LogActionPage` (line 21): `h + r - d + e`. -/
def oDelta (h r d e : ℤ) : ℤ := h + r - d + e

/-- The `domains` array of `LogActionPage` (line 6). -/
def domains : List Domain := [.income, .sleep, .nutrition, .movement, .stress, .social]

/-- The `scoreValues` array of `LogActionPage` (line 7). -/
def scoreValues : List ℤ := [-2, -1, 0, 1, 2]

/-- The component state of `LogActionPage` (the `useState` hooks,
lines 11-19). -/
structure FormState where
  title : String
  occurredAt : String
  notes : String
  domain : Domain
  h : ℤ
  r : ℤ
  d : ℤ
  e : ℤ
  tags : String
deriving DecidableEq

/-- The initial state of `LogActionPage`: empty texts, domain `income`,
all four scores 0; `now` stands for `new Date().toISOString().slice(0,16)`. -/
def initialFormState (now : String) : FormState :=
  { title := "", occurredAt := now, notes := "", domain := .income,
    h := 0, r := 0, d := 0, e := 0, tags := "" }

/-- The user events the `LogActionPage` form can fire. The domain select
offers exactly the entries of `domains` and each score select offers exactly
the entries of `scoreValues`, so a change event carries a value from the
offered set; this is recorded as a membership argument of the event. -/
inductive FormEv where
  | setTitle (s : String)
  | setOccurredAt (s : String)
  | setNotes (s : String)
  | setTags (s : String)
  | setDomain (d : Domain) (hd : d ∈ domains)
  | setH (v : ℤ) (hv : v ∈ scoreValues)
  | setR (v : ℤ) (hv : v ∈ scoreValues)
  | setD (v : ℤ) (hv : v ∈ scoreValues)
  | setE (v : ℤ) (hv : v ∈ scoreValues)

/-- One state update of the `LogActionPage` form (the `onChange` handlers). -/
def formStep (st : FormState) : FormEv → FormState
  | .setTitle s => { st with title := s }
  | .setOccurredAt s => { st with occurredAt := s }
  | .setNotes s => { st with notes := s }
  | .setTags s => { st with tags := s }
  | .setDomain d _ => { st with domain := d }
  | .setH v _ => { st with h := v }
  | .setR v _ => { st with r := v }
  | .setD v _ => { st with d := v }
  | .setE v _ => { st with e := v }

/-- The form states reachable from the initial state by user events; the
payload submitted by `onSubmit` (lines 23-37) carries exactly the
`domain, h, r, d, e` fields of such a state. -/
inductive FormReachable : FormState → Prop where
  | init (now : String) : FormReachable (initialFormState now)
  | next (st : FormState) (ev : FormEv) :
      FormReachable st → FormReachable (formStep st ev)

/-- The `exposureTypes` array of pages/LogExposurePage.tsx (line 5). -/
def exposureTypes : List String :=
  ["application", "outreach", "post", "proposal", "interview", "portfolio_update"]

/-- Modelled from the spec: the network-signal bucket of exposure types used
by the backend `N_raw` sum, which is not under src/ — "rows whose type
signals network-building (outreach, post)". -/
def networkSignalTypes : List String := ["outreach", "post"]

/-- Modelled from the spec: the lead-signal bucket of exposure types used by
the backend `L_raw` sum, which is not under src/ — "rows whose type signals
lead generation (application, proposal, interview, portfolio_update)". -/
def leadSignalTypes : List String :=
  ["application", "proposal", "interview", "portfolio_update"]

/-- `ActionPayload` from frontend/src/api.ts. -/
structure ActionPayload where
  occurred_at : String
  domain : Domain
  title : String
  notes : Option String
  h : ℤ
  r : ℤ
  d : ℤ
  e : ℤ
  tags : Option String
deriving DecidableEq

/-- `ExposurePayload` from frontend/src/api.ts. -/
structure ExposurePayload where
  occurred_at : String
  type : String
  notes : Option String
deriving DecidableEq

/-- The part of a `fetch` response the api.ts wrappers inspect: the `ok`
flag and the parsed JSON body (`res.json()`). -/
structure Response (α : Type) where
  ok : Bool
  body : α
deriving DecidableEq

/-- True on `Except.ok`, i.e. the wrapper returned without throwing. -/
def exceptOk {α : Type} : Except String α → Bool
  | .ok _ => true
  | .error _ => false

/-- `getAnalytics` from api.ts: throws "Failed to load analytics" when the
response is not ok, else returns the parsed body. -/
def getAnalytics (res : Response AnalyticsSummary) : Except String AnalyticsSummary :=
  if res.ok then .ok res.body else .error "Failed to load analytics"

/-- `createAction` from api.ts: throws "Failed to create action" when the
response is not ok, else returns without a body. -/
def createAction (payload : ActionPayload) (res : Response Unit) : Except String Unit :=
  if res.ok then .ok () else .error "Failed to create action"

/-- `createExposure` from api.ts: throws "Failed to create exposure" when
the response is not ok, else returns without a body. -/
def createExposure (payload : ExposurePayload) (res : Response Unit) : Except String Unit :=
  if res.ok then .ok () else .error "Failed to create exposure"

/-- `getIncomeSettings` from api.ts: throws "Failed to load settings" when
the response is not ok, else returns the parsed body. -/
def getIncomeSettings (res : Response IncomeModelSettings) :
    Except String IncomeModelSettings :=
  if res.ok then .ok res.body else .error "Failed to load settings"

/-- A JSON value as sent by the api.ts wrappers (only numbers and strings
occur in the settings payload). -/
inductive JsonVal where
  | num (q : ℚ)
  | str (s : String)
deriving DecidableEq

/-- The `payload` object literal built by `IncomeModelPage.onSave`
(pages/IncomeModelPage.tsx lines 41-49), as the ordered key-value list that
`JSON.stringify` serialises. -/
def onSavePayload (s : IncomeModelSettings) : List (String × JsonVal) :=
  [("target_daily_income", .num s.target_daily_income),
   ("w_s", .num s.w_s),
   ("w_n", .num s.w_n),
   ("w_l", .num s.w_l),
   ("w_e", .num s.w_e),
   ("half_life_days", .num s.half_life_days),
   ("exposure_goal_per_week", .num s.exposure_goal_per_week)]

/-- The `Omit<IncomeModelSettings, 'id' | 'updated_at'>` payload type of
`updateIncomeSettings` from api.ts. -/
structure UpdateSettingsPayload where
  target_daily_income : ℚ
  w_s : ℚ
  w_n : ℚ
  w_l : ℚ
  w_e : ℚ
  half_life_days : ℚ
  exposure_goal_per_week : ℚ
deriving DecidableEq

/-- `updateIncomeSettings` from api.ts: throws "Failed to update settings"
when the response is not ok, else returns the parsed body. -/
def updateIncomeSettings (payload : UpdateSettingsPayload)
    (res : Response IncomeModelSettings) : Except String IncomeModelSettings :=
  if res.ok then .ok res.body else .error "Failed to update settings"

/-- `getIncomeSeries` from api.ts: throws "Failed to load income series"
when the response is not ok, else returns the parsed body. -/
def getIncomeSeries (start finish : String) (res : Response IncomeModelSeries) :
    Except String IncomeModelSeries :=
  if res.ok then .ok res.body else .error "Failed to load income series"

/-- `seedData` from api.ts: throws "Failed to seed data" when the response
is not ok, else returns without a body. -/
def seedData (res : Response Unit) : Except String Unit :=
  if res.ok then .ok () else .error "Failed to seed data"

/-! Concrete sample records used to evaluate the definitions. -/

/-- A concrete capitals record with a low lead value. -/
def sampleCapitals : CapitalsLatest :=
  { s := 1/2, n := 1/2, l := 1/5, e := 1/2 }

/-- A concrete analytics totals record. -/
def sampleTotals : AnalyticsTotals :=
  { sum_o_delta := 0, avg_o_delta := 0, constraint_debt_7d_last := 0,
    exposure_count_period := 0, readiness_latest := 0,
    capitals_latest := sampleCapitals, confidence_latest := 0 }

/-- A concrete analytics summary. -/
def sampleSummary : AnalyticsSummary :=
  { totals := sampleTotals, daily := [], weekly_exposure := [] }

/-- A settings record with the given four weights and the documented
defaults for the other fields. -/
def baseSettings (ws wn wl we : ℚ) : IncomeModelSettings :=
  { id := 1, target_daily_income := 200, w_s := ws, w_n := wn, w_l := wl,
    w_e := we, half_life_days := 21, exposure_goal_per_week := 5,
    updated_at := "2026-01-01" }

/-- An income-model point whose four capitals all equal 1. -/
def samplePoint : IncomeModelPoint :=
  { date := "2026-01-31", s := 1, n := 1, l := 1, e := 1, readiness := 0,
    confidence := 0, low_data_confidence := true }

/-- An income-model series with the given `current` point and settings. -/
def sampleSeries (c : Option IncomeModelPoint) (st : IncomeModelSettings) :
    IncomeModelSeries :=
  { daily := [], current := c, settings := st, explanations := [] }

/-! Theorems. -/

/-- Unfolding `restWeightSum` when the updated key is `w_s`. -/
theorem restWeightSum_w_s (st : IncomeModelSettings) :
    restWeightSum st .w_s = 0 + st.w_n + st.w_l + st.w_e := rfl

/-- Unfolding `restWeightSum` when the updated key is `w_n`. -/
theorem restWeightSum_w_n (st : IncomeModelSettings) :
    restWeightSum st .w_n = 0 + st.w_s + st.w_l + st.w_e := rfl

/-- Unfolding `restWeightSum` when the updated key is `w_l`. -/
theorem restWeightSum_w_l (st : IncomeModelSettings) :
    restWeightSum st .w_l = 0 + st.w_s + st.w_n + st.w_e := rfl

/-- Unfolding `restWeightSum` when the updated key is `w_e`. -/
theorem restWeightSum_w_e (st : IncomeModelSettings) :
    restWeightSum st .w_e = 0 + st.w_s + st.w_n + st.w_l := rfl

/-- `rebalance` written out when the updated key is `w_s`. -/
theorem rebalance_w_s_eq (st : IncomeModelSettings) (v : ℚ) :
    rebalance st .w_s v =
      { st with
        w_s := v,
        w_n := st.w_n / (if restWeightSum st .w_s = 0 then 1 else restWeightSum st .w_s) * max 0 (1 - v),
        w_l := st.w_l / (if restWeightSum st .w_s = 0 then 1 else restWeightSum st .w_s) * max 0 (1 - v),
        w_e := st.w_e / (if restWeightSum st .w_s = 0 then 1 else restWeightSum st .w_s) * max 0 (1 - v) } := rfl

/-- `rebalance` written out when the updated key is `w_n`. -/
theorem rebalance_w_n_eq (st : IncomeModelSettings) (v : ℚ) :
    rebalance st .w_n v =
      { st with
        w_n := v,
        w_s := st.w_s / (if restWeightSum st .w_n = 0 then 1 else restWeightSum st .w_n) * max 0 (1 - v),
        w_l := st.w_l / (if restWeightSum st .w_n = 0 then 1 else restWeightSum st .w_n) * max 0 (1 - v),
        w_e := st.w_e / (if restWeightSum st .w_n = 0 then 1 else restWeightSum st .w_n) * max 0 (1 - v) } := rfl

/-- `rebalance` written out when the updated key is `w_l`. -/
theorem rebalance_w_l_eq (st : IncomeModelSettings) (v : ℚ) :
    rebalance st .w_l v =
      { st with
        w_l := v,
        w_s := st.w_s / (if restWeightSum st .w_l = 0 then 1 else restWeightSum st .w_l) * max 0 (1 - v),
        w_n := st.w_n / (if restWeightSum st .w_l = 0 then 1 else restWeightSum st .w_l) * max 0 (1 - v),
        w_e := st.w_e / (if restWeightSum st .w_l = 0 then 1 else restWeightSum st .w_l) * max 0 (1 - v) } := rfl

/-- `rebalance` written out when the updated key is `w_e`. -/
theorem rebalance_w_e_eq (st : IncomeModelSettings) (v : ℚ) :
    rebalance st .w_e v =
      { st with
        w_e := v,
        w_s := st.w_s / (if restWeightSum st .w_e = 0 then 1 else restWeightSum st .w_e) * max 0 (1 - v),
        w_n := st.w_n / (if restWeightSum st .w_e = 0 then 1 else restWeightSum st .w_e) * max 0 (1 - v),
        w_l := st.w_l / (if restWeightSum st .w_e = 0 then 1 else restWeightSum st .w_e) * max 0 (1 - v) } := rfl

/-- Each proportional term produced by `rebalance` lies in [0,1] when the
scaled weight is between 0 and the positive rest sum and the slider value
is in [0,1]. -/
theorem rebalance_term_bounds (S x v : ℚ) (hx0 : 0 ≤ x) (hxS : x ≤ S) (hS : 0 < S)
    (hv0 : 0 ≤ v) (hv1 : v ≤ 1) :
    0 ≤ x / (if S = 0 then 1 else S) * max 0 (1 - v) ∧
      x / (if S = 0 then 1 else S) * max 0 (1 - v) ≤ 1 := by
  rw [if_neg hS.ne', max_eq_right (by linarith)]
  have h1v : (0:ℚ) ≤ 1 - v := by linarith
  have hdiv0 : 0 ≤ x / S := div_nonneg hx0 hS.le
  have hdiv1 : x / S ≤ 1 := (div_le_one hS).mpr hxS
  exact ⟨mul_nonneg hdiv0 h1v, by nlinarith⟩

/-- The three proportional terms produced by `rebalance` sum to `1 - v`
when the rest sum is nonzero. -/
theorem rebalance_terms_sum (S a b c v : ℚ) (hS : S ≠ 0) (habc : a + b + c = S)
    (hv1 : v ≤ 1) :
    a / (if S = 0 then 1 else S) * max 0 (1 - v) +
      b / (if S = 0 then 1 else S) * max 0 (1 - v) +
      c / (if S = 0 then 1 else S) * max 0 (1 - v) = 1 - v := by
  rw [if_neg hS, max_eq_right (by linarith)]
  field_simp
  linear_combination (1 - v) * habc

/-- C4: for all integer scores H, R, D, E, the derived net score `oDelta`
computed by the log-action form equals `H + R - D + E` exactly. -/
theorem C4_oDelta_formula (h r d e : ℤ) : oDelta h r d e = h + r - d + e := rfl

/-- C7: the dashboard lead-capital explanation is threshold-driven — the
low-lead message appears exactly when the latest lead capital is strictly
below 0.4, the healthy-range message exactly otherwise, and the two
messages are distinct. -/
theorem C7_lead_message_threshold (a : AnalyticsSummary) :
    (a.totals.capitals_latest.l < 0.4 → leadCapitalMessage a = leadLowMessage) ∧
    (¬ a.totals.capitals_latest.l < 0.4 → leadCapitalMessage a = leadHealthyMessage) ∧
    leadLowMessage ≠ leadHealthyMessage := by
  refine ⟨fun h => ?_, fun h => ?_, ?_⟩
  · simp [leadCapitalMessage, h]
  · simp [leadCapitalMessage, h]
  · decide

/-- C7 witness: at the sample summary, whose latest lead capital is 1/5,
the dashboard shows the low-lead message. -/
theorem C7_lead_message_threshold_witness :
    leadCapitalMessage sampleSummary = leadLowMessage :=
  (C7_lead_message_threshold sampleSummary).1 (by norm_num [sampleSummary, sampleTotals, sampleCapitals])

/-- C6: the exposure types offered by the log-exposure form are exactly the
union of the network-signal bucket and the lead-signal bucket, and every
offered type lies in exactly one of the two buckets. -/
theorem C6_exposure_type_partition :
    exposureTypes.toFinset = networkSignalTypes.toFinset ∪ leadSignalTypes.toFinset ∧
    (∀ t, t ∈ exposureTypes → (t ∈ networkSignalTypes ↔ t ∉ leadSignalTypes)) := by
  constructor
  · decide
  · decide

/-- C6 witness: the offered type "outreach" is in the network-signal bucket
and hence not in the lead-signal bucket. -/
theorem C6_exposure_type_partition_witness :
    ("outreach" ∈ networkSignalTypes ↔ "outreach" ∉ leadSignalTypes) :=
  C6_exposure_type_partition.2 "outreach" (by decide)

/-- C10: the payload built by `IncomeModelPage.onSave` has exactly the seven
user-editable keys, never contains the keys `id` or `updated_at`, and is a
function of the seven user-editable fields alone, so the client cannot
overwrite the two system-owned fields. -/
theorem C10_onSave_payload_fields (s : IncomeModelSettings) :
    (onSavePayload s).map Prod.fst =
      ["target_daily_income", "w_s", "w_n", "w_l", "w_e", "half_life_days",
       "exposure_goal_per_week"] ∧
    "id" ∉ (onSavePayload s).map Prod.fst ∧
    "updated_at" ∉ (onSavePayload s).map Prod.fst ∧
    (∀ s2 : IncomeModelSettings,
      s2.target_daily_income = s.target_daily_income → s2.w_s = s.w_s →
      s2.w_n = s.w_n → s2.w_l = s.w_l → s2.w_e = s.w_e →
      s2.half_life_days = s.half_life_days →
      s2.exposure_goal_per_week = s.exposure_goal_per_week →
      onSavePayload s2 = onSavePayload s) := by
  refine ⟨rfl, by simp [onSavePayload], by simp [onSavePayload], ?_⟩
  intro s2 h1 h2 h3 h4 h5 h6 h7
  simp [onSavePayload, h1, h2, h3, h4, h5, h6, h7]

/-- C10 witness: two settings records that differ only in `id` and
`updated_at` produce the same save payload. -/
theorem C10_onSave_payload_fields_witness :
    onSavePayload { baseSettings (1/4) (1/4) (1/4) (1/4) with id := 2, updated_at := "2026-02-02" } =
      onSavePayload (baseSettings (1/4) (1/4) (1/4) (1/4)) :=
  (C10_onSave_payload_fields (baseSettings (1/4) (1/4) (1/4) (1/4))).2.2.2
    { baseSettings (1/4) (1/4) (1/4) (1/4) with id := 2, updated_at := "2026-02-02" }
    rfl rfl rfl rfl rfl rfl rfl

/-- C9: every api.ts wrapper returns without throwing exactly when the HTTP
response is ok, and the getters and `updateIncomeSettings` then return the
parsed body. -/
theorem C9_api_throw_iff_not_ok :
    (∀ r : Response AnalyticsSummary,
      (exceptOk (getAnalytics r) = true ↔ r.ok = true) ∧
      (r.ok = true → getAnalytics r = .ok r.body)) ∧
    (∀ p : ActionPayload, ∀ r : Response Unit,
      exceptOk (createAction p r) = true ↔ r.ok = true) ∧
    (∀ p : ExposurePayload, ∀ r : Response Unit,
      exceptOk (createExposure p r) = true ↔ r.ok = true) ∧
    (∀ r : Response IncomeModelSettings,
      (exceptOk (getIncomeSettings r) = true ↔ r.ok = true) ∧
      (r.ok = true → getIncomeSettings r = .ok r.body)) ∧
    (∀ p : UpdateSettingsPayload, ∀ r : Response IncomeModelSettings,
      (exceptOk (updateIncomeSettings p r) = true ↔ r.ok = true) ∧
      (r.ok = true → updateIncomeSettings p r = .ok r.body)) ∧
    (∀ a b : String, ∀ r : Response IncomeModelSeries,
      (exceptOk (getIncomeSeries a b r) = true ↔ r.ok = true) ∧
      (r.ok = true → getIncomeSeries a b r = .ok r.body)) ∧
    (∀ r : Response Unit, exceptOk (seedData r) = true ↔ r.ok = true) := by
  refine ⟨fun r => ?_, fun p r => ?_, fun p r => ?_, fun r => ?_, fun p r => ?_,
    fun a b r => ?_, fun r => ?_⟩ <;>
    cases r with
    | mk ok body =>
      cases ok <;>
        simp [getAnalytics, createAction, createExposure, getIncomeSettings,
          updateIncomeSettings, getIncomeSeries, seedData, exceptOk]

/-- C9 witness: on an ok response carrying the sample summary,
`getAnalytics` returns the body. -/
theorem C9_api_throw_iff_not_ok_witness :
    getAnalytics { ok := true, body := sampleSummary } = .ok sampleSummary :=
  (C9_api_throw_iff_not_ok.1 { ok := true, body := sampleSummary }).2 rfl

/-- C8: when the settings record is missing or the series has no `current`
point, the readiness preview is `none` rather than a number, and the page
renders the placeholder "--". -/
theorem C8_no_data_representable (st : IncomeModelSettings)
    (se : IncomeModelSeries) (hc : se.current = none) :
    preview none (some se) = none ∧
    preview (some st) none = none ∧
    preview (some st) (some se) = none ∧
    previewDisplay (preview (some st) (some se)) = "--" ∧
    previewDisplay (preview none (some se)) = "--" ∧
    previewDisplay (preview (some st) none) = "--" := by
  refine ⟨rfl, rfl, ?_, ?_, rfl, rfl⟩ <;> simp [preview, hc, previewDisplay]

/-- C8 witness: the concrete series with no current point and default
settings yield a `none` preview rendered as "--". -/
theorem C8_no_data_representable_witness :
    preview (some (baseSettings (1/4) (1/4) (1/4) (1/4)))
        (some (sampleSeries none (baseSettings (1/4) (1/4) (1/4) (1/4)))) = none ∧
    previewDisplay (preview (some (baseSettings (1/4) (1/4) (1/4) (1/4)))
        (some (sampleSeries none (baseSettings (1/4) (1/4) (1/4) (1/4))))) = "--" := by
  have h := C8_no_data_representable (baseSettings (1/4) (1/4) (1/4) (1/4))
    (sampleSeries none (baseSettings (1/4) (1/4) (1/4) (1/4))) rfl
  exact ⟨h.2.2.1, h.2.2.2.1⟩

/-- C1 counterexample: with weights 1/2 each (a well-formed settings record
with every weight in [0,1]) and all four capitals equal to 1, the preview is
200 while 100 times the clamped weighted sum is 100, so the preview does
not equal `100 * clamp01(weighted sum)` for every settings record. -/
theorem C1_counterexample :
    preview (some (baseSettings (1/2) (1/2) (1/2) (1/2)))
        (some (sampleSeries (some samplePoint) (baseSettings (1/2) (1/2) (1/2) (1/2)))) ≠
      some (100 * clamp01
        ((baseSettings (1/2) (1/2) (1/2) (1/2)).w_s * samplePoint.s +
         (baseSettings (1/2) (1/2) (1/2) (1/2)).w_n * samplePoint.n +
         (baseSettings (1/2) (1/2) (1/2) (1/2)).w_l * samplePoint.l +
         (baseSettings (1/2) (1/2) (1/2) (1/2)).w_e * samplePoint.e)) := by
  norm_num [preview, clamp01, baseSettings, samplePoint, sampleSeries]

/-- C1 amended: the readiness preview is the unclamped value
`100 * (w_s*S + w_n*N + w_l*L + w_e*E)`; whenever the weighted sum already
lies in [0,1] — in particular under the sum-to-1 settings invariant — it
equals `100 * clamp01` of the weighted sum. -/
theorem C1_preview_weighted_sum (st : IncomeModelSettings) (se : IncomeModelSeries)
    (c : IncomeModelPoint) (hc : se.current = some c)
    (h0 : 0 ≤ st.w_s * c.s + st.w_n * c.n + st.w_l * c.l + st.w_e * c.e)
    (h1 : st.w_s * c.s + st.w_n * c.n + st.w_l * c.l + st.w_e * c.e ≤ 1) :
    preview (some st) (some se) =
      some (100 * clamp01 (st.w_s * c.s + st.w_n * c.n + st.w_l * c.l + st.w_e * c.e)) := by
  have hcl : clamp01 (st.w_s * c.s + st.w_n * c.n + st.w_l * c.l + st.w_e * c.e) =
      st.w_s * c.s + st.w_n * c.n + st.w_l * c.l + st.w_e * c.e := by
    unfold clamp01
    rw [max_eq_right h0, min_eq_right h1]
  simp [preview, hc, hcl]

/-- C1 witness: with the default weights 1/4 each and all capitals 1 the
weighted sum is 1, and the preview equals 100 times its clamped value. -/
theorem C1_preview_weighted_sum_witness :
    preview (some (baseSettings (1/4) (1/4) (1/4) (1/4)))
        (some (sampleSeries (some samplePoint) (baseSettings (1/4) (1/4) (1/4) (1/4)))) =
      some (100 * clamp01
        ((baseSettings (1/4) (1/4) (1/4) (1/4)).w_s * samplePoint.s +
         (baseSettings (1/4) (1/4) (1/4) (1/4)).w_n * samplePoint.n +
         (baseSettings (1/4) (1/4) (1/4) (1/4)).w_l * samplePoint.l +
         (baseSettings (1/4) (1/4) (1/4) (1/4)).w_e * samplePoint.e)) :=
  C1_preview_weighted_sum (baseSettings (1/4) (1/4) (1/4) (1/4))
    (sampleSeries (some samplePoint) (baseSettings (1/4) (1/4) (1/4) (1/4)))
    samplePoint rfl
    (by norm_num [baseSettings, samplePoint])
    (by norm_num [baseSettings, samplePoint])

/-- C3 counterexample: with every weight equal to 1 (each in [0,1]) and
every capital equal to 1 (each in [0,1]), the computed readiness is 400,
which is not at most 100. -/
theorem C3_counterexample :
    (0 ≤ (baseSettings 1 1 1 1).w_s ∧ (baseSettings 1 1 1 1).w_s ≤ 1) ∧
    (0 ≤ (baseSettings 1 1 1 1).w_n ∧ (baseSettings 1 1 1 1).w_n ≤ 1) ∧
    (0 ≤ (baseSettings 1 1 1 1).w_l ∧ (baseSettings 1 1 1 1).w_l ≤ 1) ∧
    (0 ≤ (baseSettings 1 1 1 1).w_e ∧ (baseSettings 1 1 1 1).w_e ≤ 1) ∧
    (0 ≤ samplePoint.s ∧ samplePoint.s ≤ 1) ∧
    (0 ≤ samplePoint.n ∧ samplePoint.n ≤ 1) ∧
    (0 ≤ samplePoint.l ∧ samplePoint.l ≤ 1) ∧
    (0 ≤ samplePoint.e ∧ samplePoint.e ≤ 1) ∧
    preview (some (baseSettings 1 1 1 1))
        (some (sampleSeries (some samplePoint) (baseSettings 1 1 1 1))) = some 400 ∧
    ¬ ((400:ℚ) ≤ 100) := by
  norm_num [preview, baseSettings, samplePoint, sampleSeries]

/-- C3 amended: for capitals each in [0,1] and nonnegative weights whose
sum is at most 1, the readiness computed by the preview is in [0,100]. -/
theorem C3_readiness_in_range (st : IncomeModelSettings) (se : IncomeModelSeries)
    (c : IncomeModelPoint) (hc : se.current = some c)
    (hws : 0 ≤ st.w_s) (hwn : 0 ≤ st.w_n) (hwl : 0 ≤ st.w_l) (hwe : 0 ≤ st.w_e)
    (hsum : st.w_s + st.w_n + st.w_l + st.w_e ≤ 1)
    (hs0 : 0 ≤ c.s) (hs1 : c.s ≤ 1) (hn0 : 0 ≤ c.n) (hn1 : c.n ≤ 1)
    (hl0 : 0 ≤ c.l) (hl1 : c.l ≤ 1) (he0 : 0 ≤ c.e) (he1 : c.e ≤ 1) :
    preview (some st) (some se) =
      some (100 * (st.w_s * c.s + st.w_n * c.n + st.w_l * c.l + st.w_e * c.e)) ∧
    0 ≤ 100 * (st.w_s * c.s + st.w_n * c.n + st.w_l * c.l + st.w_e * c.e) ∧
    100 * (st.w_s * c.s + st.w_n * c.n + st.w_l * c.l + st.w_e * c.e) ≤ 100 := by
  have t1 : st.w_s * c.s ≤ st.w_s := mul_le_of_le_one_right hws hs1
  have t2 : st.w_n * c.n ≤ st.w_n := mul_le_of_le_one_right hwn hn1
  have t3 : st.w_l * c.l ≤ st.w_l := mul_le_of_le_one_right hwl hl1
  have t4 : st.w_e * c.e ≤ st.w_e := mul_le_of_le_one_right hwe he1
  have n1 : 0 ≤ st.w_s * c.s := mul_nonneg hws hs0
  have n2 : 0 ≤ st.w_n * c.n := mul_nonneg hwn hn0
  have n3 : 0 ≤ st.w_l * c.l := mul_nonneg hwl hl0
  have n4 : 0 ≤ st.w_e * c.e := mul_nonneg hwe he0
  refine ⟨by simp [preview, hc], by linarith, by linarith⟩

/-- C3 witness: with the default weights 1/4 each and all capitals 1, the
readiness is 100 and lies in [0,100]. -/
theorem C3_readiness_in_range_witness :
    preview (some (baseSettings (1/4) (1/4) (1/4) (1/4)))
        (some (sampleSeries (some samplePoint) (baseSettings (1/4) (1/4) (1/4) (1/4)))) =
      some (100 * ((baseSettings (1/4) (1/4) (1/4) (1/4)).w_s * samplePoint.s +
        (baseSettings (1/4) (1/4) (1/4) (1/4)).w_n * samplePoint.n +
        (baseSettings (1/4) (1/4) (1/4) (1/4)).w_l * samplePoint.l +
        (baseSettings (1/4) (1/4) (1/4) (1/4)).w_e * samplePoint.e)) ∧
    0 ≤ 100 * ((baseSettings (1/4) (1/4) (1/4) (1/4)).w_s * samplePoint.s +
        (baseSettings (1/4) (1/4) (1/4) (1/4)).w_n * samplePoint.n +
        (baseSettings (1/4) (1/4) (1/4) (1/4)).w_l * samplePoint.l +
        (baseSettings (1/4) (1/4) (1/4) (1/4)).w_e * samplePoint.e) ∧
    100 * ((baseSettings (1/4) (1/4) (1/4) (1/4)).w_s * samplePoint.s +
        (baseSettings (1/4) (1/4) (1/4) (1/4)).w_n * samplePoint.n +
        (baseSettings (1/4) (1/4) (1/4) (1/4)).w_l * samplePoint.l +
        (baseSettings (1/4) (1/4) (1/4) (1/4)).w_e * samplePoint.e) ≤ 100 :=
  C3_readiness_in_range (baseSettings (1/4) (1/4) (1/4) (1/4))
    (sampleSeries (some samplePoint) (baseSettings (1/4) (1/4) (1/4) (1/4)))
    samplePoint rfl
    (by norm_num [baseSettings]) (by norm_num [baseSettings])
    (by norm_num [baseSettings]) (by norm_num [baseSettings])
    (by norm_num [baseSettings])
    (by norm_num [samplePoint]) (by norm_num [samplePoint])
    (by norm_num [samplePoint]) (by norm_num [samplePoint])
    (by norm_num [samplePoint]) (by norm_num [samplePoint])
    (by norm_num [samplePoint]) (by norm_num [samplePoint])

/-- C2 counterexample: starting from the settings with weights
(1, 0, 0, 0) — each in [0,1] — and moving the `w_s` slider to 1/2 (in
[0,1]), the `restSum || 1` fallback leaves the other three weights at 0, so
the rebalanced weights sum to 1/2, not 1. -/
theorem C2_counterexample :
    (0 ≤ (baseSettings 1 0 0 0).w_s ∧ (baseSettings 1 0 0 0).w_s ≤ 1) ∧
    (0 ≤ (baseSettings 1 0 0 0).w_n ∧ (baseSettings 1 0 0 0).w_n ≤ 1) ∧
    (0 ≤ (baseSettings 1 0 0 0).w_l ∧ (baseSettings 1 0 0 0).w_l ≤ 1) ∧
    (0 ≤ (baseSettings 1 0 0 0).w_e ∧ (baseSettings 1 0 0 0).w_e ≤ 1) ∧
    (0 ≤ (1:ℚ)/2 ∧ (1:ℚ)/2 ≤ 1) ∧
    (rebalance (baseSettings 1 0 0 0) .w_s (1/2)).w_s +
        (rebalance (baseSettings 1 0 0 0) .w_s (1/2)).w_n +
        (rebalance (baseSettings 1 0 0 0) .w_s (1/2)).w_l +
        (rebalance (baseSettings 1 0 0 0) .w_s (1/2)).w_e ≠ 1 := by
  rw [rebalance_w_s_eq, restWeightSum_w_s]
  norm_num [baseSettings]

/-- C2 amended: if all four weights are in [0,1], the new slider value is in
[0,1], and the three weights other than the updated one do not sum to 0,
then `rebalance` yields four weights in [0,1] summing exactly to 1. -/
theorem C2_rebalance_invariant (st : IncomeModelSettings) (which : WeightKey)
    (value : ℚ)
    (hs0 : 0 ≤ st.w_s) (hs1 : st.w_s ≤ 1) (hn0 : 0 ≤ st.w_n) (hn1 : st.w_n ≤ 1)
    (hl0 : 0 ≤ st.w_l) (hl1 : st.w_l ≤ 1) (he0 : 0 ≤ st.w_e) (he1 : st.w_e ≤ 1)
    (hv0 : 0 ≤ value) (hv1 : value ≤ 1)
    (hrest : restWeightSum st which ≠ 0) :
    (0 ≤ (rebalance st which value).w_s ∧ (rebalance st which value).w_s ≤ 1) ∧
    (0 ≤ (rebalance st which value).w_n ∧ (rebalance st which value).w_n ≤ 1) ∧
    (0 ≤ (rebalance st which value).w_l ∧ (rebalance st which value).w_l ≤ 1) ∧
    (0 ≤ (rebalance st which value).w_e ∧ (rebalance st which value).w_e ≤ 1) ∧
    (rebalance st which value).w_s + (rebalance st which value).w_n +
      (rebalance st which value).w_l + (rebalance st which value).w_e = 1 := by
  cases which with
  | w_s =>
    rw [restWeightSum_w_s] at hrest
    have hS : 0 < 0 + st.w_n + st.w_l + st.w_e :=
      lt_of_le_of_ne (by linarith) (Ne.symm hrest)
    rw [rebalance_w_s_eq, restWeightSum_w_s]
    dsimp only
    have hbn := rebalance_term_bounds (0 + st.w_n + st.w_l + st.w_e) st.w_n value
      hn0 (by linarith) hS hv0 hv1
    have hbl := rebalance_term_bounds (0 + st.w_n + st.w_l + st.w_e) st.w_l value
      hl0 (by linarith) hS hv0 hv1
    have hbe := rebalance_term_bounds (0 + st.w_n + st.w_l + st.w_e) st.w_e value
      he0 (by linarith) hS hv0 hv1
    have hsum := rebalance_terms_sum (0 + st.w_n + st.w_l + st.w_e)
      st.w_n st.w_l st.w_e value hrest (by ring) hv1
    exact ⟨⟨hv0, hv1⟩, hbn, hbl, hbe, by linarith⟩
  | w_n =>
    rw [restWeightSum_w_n] at hrest
    have hS : 0 < 0 + st.w_s + st.w_l + st.w_e :=
      lt_of_le_of_ne (by linarith) (Ne.symm hrest)
    rw [rebalance_w_n_eq, restWeightSum_w_n]
    dsimp only
    have hbs := rebalance_term_bounds (0 + st.w_s + st.w_l + st.w_e) st.w_s value
      hs0 (by linarith) hS hv0 hv1
    have hbl := rebalance_term_bounds (0 + st.w_s + st.w_l + st.w_e) st.w_l value
      hl0 (by linarith) hS hv0 hv1
    have hbe := rebalance_term_bounds (0 + st.w_s + st.w_l + st.w_e) st.w_e value
      he0 (by linarith) hS hv0 hv1
    have hsum := rebalance_terms_sum (0 + st.w_s + st.w_l + st.w_e)
      st.w_s st.w_l st.w_e value hrest (by ring) hv1
    exact ⟨hbs, ⟨hv0, hv1⟩, hbl, hbe, by linarith⟩
  | w_l =>
    rw [restWeightSum_w_l] at hrest
    have hS : 0 < 0 + st.w_s + st.w_n + st.w_e :=
      lt_of_le_of_ne (by linarith) (Ne.symm hrest)
    rw [rebalance_w_l_eq, restWeightSum_w_l]
    dsimp only
    have hbs := rebalance_term_bounds (0 + st.w_s + st.w_n + st.w_e) st.w_s value
      hs0 (by linarith) hS hv0 hv1
    have hbn := rebalance_term_bounds (0 + st.w_s + st.w_n + st.w_e) st.w_n value
      hn0 (by linarith) hS hv0 hv1
    have hbe := rebalance_term_bounds (0 + st.w_s + st.w_n + st.w_e) st.w_e value
      he0 (by linarith) hS hv0 hv1
    have hsum := rebalance_terms_sum (0 + st.w_s + st.w_n + st.w_e)
      st.w_s st.w_n st.w_e value hrest (by ring) hv1
    exact ⟨hbs, hbn, ⟨hv0, hv1⟩, hbe, by linarith⟩
  | w_e =>
    rw [restWeightSum_w_e] at hrest
    have hS : 0 < 0 + st.w_s + st.w_n + st.w_l :=
      lt_of_le_of_ne (by linarith) (Ne.symm hrest)
    rw [rebalance_w_e_eq, restWeightSum_w_e]
    dsimp only
    have hbs := rebalance_term_bounds (0 + st.w_s + st.w_n + st.w_l) st.w_s value
      hs0 (by linarith) hS hv0 hv1
    have hbn := rebalance_term_bounds (0 + st.w_s + st.w_n + st.w_l) st.w_n value
      hn0 (by linarith) hS hv0 hv1
    have hbl := rebalance_term_bounds (0 + st.w_s + st.w_n + st.w_l) st.w_l value
      hl0 (by linarith) hS hv0 hv1
    have hsum := rebalance_terms_sum (0 + st.w_s + st.w_n + st.w_l)
      st.w_s st.w_n st.w_l value hrest (by ring) hv1
    exact ⟨hbs, hbn, hbl, ⟨hv0, hv1⟩, by linarith⟩

/-- C2 witness: from the default settings with weights 1/4 each, moving the
`w_s` slider to 1/2 yields four weights in [0,1] that sum to 1. -/
theorem C2_rebalance_invariant_witness :
    (0 ≤ (rebalance (baseSettings (1/4) (1/4) (1/4) (1/4)) .w_s (1/2)).w_s ∧
      (rebalance (baseSettings (1/4) (1/4) (1/4) (1/4)) .w_s (1/2)).w_s ≤ 1) ∧
    (0 ≤ (rebalance (baseSettings (1/4) (1/4) (1/4) (1/4)) .w_s (1/2)).w_n ∧
      (rebalance (baseSettings (1/4) (1/4) (1/4) (1/4)) .w_s (1/2)).w_n ≤ 1) ∧
    (0 ≤ (rebalance (baseSettings (1/4) (1/4) (1/4) (1/4)) .w_s (1/2)).w_l ∧
      (rebalance (baseSettings (1/4) (1/4) (1/4) (1/4)) .w_s (1/2)).w_l ≤ 1) ∧
    (0 ≤ (rebalance (baseSettings (1/4) (1/4) (1/4) (1/4)) .w_s (1/2)).w_e ∧
      (rebalance (baseSettings (1/4) (1/4) (1/4) (1/4)) .w_s (1/2)).w_e ≤ 1) ∧
    (rebalance (baseSettings (1/4) (1/4) (1/4) (1/4)) .w_s (1/2)).w_s +
      (rebalance (baseSettings (1/4) (1/4) (1/4) (1/4)) .w_s (1/2)).w_n +
      (rebalance (baseSettings (1/4) (1/4) (1/4) (1/4)) .w_s (1/2)).w_l +
      (rebalance (baseSettings (1/4) (1/4) (1/4) (1/4)) .w_s (1/2)).w_e = 1 :=
  C2_rebalance_invariant (baseSettings (1/4) (1/4) (1/4) (1/4)) .w_s (1/2)
    (by norm_num [baseSettings]) (by norm_num [baseSettings])
    (by norm_num [baseSettings]) (by norm_num [baseSettings])
    (by norm_num [baseSettings]) (by norm_num [baseSettings])
    (by norm_num [baseSettings]) (by norm_num [baseSettings])
    (by norm_num) (by norm_num)
    (by rw [restWeightSum_w_s]; norm_num [baseSettings])

/-- C5: every form state reachable from the initial state of the log-action
page by user events has its four scores in `scoreValues` = \x7b-2,-1,0,1,2\x7d
and its domain among the six offered domains, so the submitted action
carries no other values. -/
theorem C5_form_field_validity (st : FormState) (hst : FormReachable st) :
    st.h ∈ scoreValues ∧ st.r ∈ scoreValues ∧ st.d ∈ scoreValues ∧
      st.e ∈ scoreValues ∧ st.domain ∈ domains := by
  induction hst with
  | init now =>
    refine ⟨?_, ?_, ?_, ?_, ?_⟩ <;> simp [initialFormState, scoreValues, domains]
  | next st2 ev hr ih =>
    obtain ⟨ihh, ihr, ihd2, ihe, ihdom⟩ := ih
    cases ev with
    | setTitle s => exact ⟨ihh, ihr, ihd2, ihe, ihdom⟩
    | setOccurredAt s => exact ⟨ihh, ihr, ihd2, ihe, ihdom⟩
    | setNotes s => exact ⟨ihh, ihr, ihd2, ihe, ihdom⟩
    | setTags s => exact ⟨ihh, ihr, ihd2, ihe, ihdom⟩
    | setDomain d hd => exact ⟨ihh, ihr, ihd2, ihe, hd⟩
    | setH v hv => exact ⟨hv, ihr, ihd2, ihe, ihdom⟩
    | setR v hv => exact ⟨ihh, hv, ihd2, ihe, ihdom⟩
    | setD v hv => exact ⟨ihh, ihr, hv, ihe, ihdom⟩
    | setE v hv => exact ⟨ihh, ihr, ihd2, hv, ihdom⟩

/-- C5 witness: the initial form state has all four scores (0) in
`scoreValues` and its domain (income) among the offered domains. -/
theorem C5_form_field_validity_witness :
    (initialFormState "2026-02-03T12:00").h ∈ scoreValues ∧
    (initialFormState "2026-02-03T12:00").r ∈ scoreValues ∧
    (initialFormState "2026-02-03T12:00").d ∈ scoreValues ∧
    (initialFormState "2026-02-03T12:00").e ∈ scoreValues ∧
    (initialFormState "2026-02-03T12:00").domain ∈ domains :=
  C5_form_field_validity (initialFormState "2026-02-03T12:00")
    (FormReachable.init "2026-02-03T12:00")

end Clarion
